import Mathlib

/-!
Verification of the PULSE-System-Monitor time-series pattern and anomaly
engine.  The Python sources (`ml_anomaly_detector.py`, `process_tracker.py`,
`memory_monitor.py`) are shallowly embedded: numeric values are modelled as
exact rationals, `numpy` statistics become list functions on `ℚ`, and the
square root used by `np.std` / `np.corrcoef` is passed in as an explicit
function argument `s : ℚ → ℚ` (instantiated with `ratSqrt`, which is exact
on perfect squares, for all concrete computations).  Fallible Python code
(expressions that can raise `ZeroDivisionError`) is modelled with `Option`.
-/

/-- Arithmetic mean of a list of rationals (`np.mean`); 0 on the empty list
(call sites in the source only use it on nonempty data). -/
def listMean (xs : List ℚ) : ℚ := xs.sum / xs.length

/-- Population variance (`np.std(xs)` squared, ddof = 0). -/
def listVar (xs : List ℚ) : ℚ := listMean (xs.map (fun x => (x - listMean xs) ^ 2))

/-- Maximum of a list (`max(xs)` / `np.max`); defined via fold from the head
so that it is the true maximum on nonempty lists. -/
def listMax (xs : List ℚ) : ℚ := xs.foldl max (xs.headD 0)

/-- Fuelled binary search for the integer square root: maintains
`lo² ≤ n < hi²` and returns `lo` once the interval is a singleton. -/
def isqrtAux (n : ℕ) : ℕ → ℕ → ℕ → ℕ
  | 0, lo, _ => lo
  | f + 1, lo, hi =>
    if hi ≤ lo + 1 then lo
    else
      let mid := (lo + hi) / 2
      if mid * mid ≤ n then isqrtAux n f mid hi else isqrtAux n f lo mid

/-- Integer square root (`⌊√n⌋`); 200 halvings suffice for any `n < 2^199`. -/
def natSqrt (n : ℕ) : ℕ := isqrtAux n 200 0 (n + 1)

/-- A computable stand-in for the real square root: exact whenever the
numerator and denominator of the (nonnegative) argument are perfect squares,
which is the case for every concrete value fed to `np.std` in the examples
below. -/
def ratSqrt (q : ℚ) : ℚ := if q ≤ 0 then 0 else (natSqrt q.num.toNat : ℚ) / (natSqrt q.den : ℚ)

/-- The last `k` elements of a list (Python `xs[-k:]`). -/
def lastN (k : ℕ) (xs : List α) : List α := xs.drop (xs.length - k)

/-- Column `i` of a rectangular row-major matrix (`array[:, i]`). -/
def col (rows : List (List ℚ)) (i : ℕ) : List ℚ := rows.map (fun r => r.getD i 0)

/-- Number of columns of a rectangular row-major matrix (`array.shape[1]`). -/
def ncols (rows : List (List ℚ)) : ℕ := (rows.headD []).length

/-- Ordinary least-squares slope of `(index, value)` pairs
(`np.polyfit(np.arange(len(ys)), ys, 1)[0]`). -/
def olsSlope (ys : List ℚ) : ℚ :=
  let n : ℚ := ys.length
  let sx : ℚ := ((List.range ys.length).map (fun i => (i : ℚ))).sum
  let sy : ℚ := ys.sum
  let sxy : ℚ := (((List.range ys.length).zip ys).map (fun p => (p.1 : ℚ) * p.2)).sum
  let sxx : ℚ := ((List.range ys.length).map (fun i => ((i : ℚ)) ^ 2)).sum
  (n * sxy - sx * sy) / (n * sxx - sx ^ 2)

/-- Ordinary least-squares intercept (`np.polyfit(..., 1)[1]`). -/
def olsIntercept (ys : List ℚ) : ℚ :=
  listMean ys - olsSlope ys * (((ys.length : ℚ) - 1) / 2)

/-- One append into a bounded rolling window: Python
`seq.append(x); if len(seq) > cap: seq.pop(0)` (equivalently a
`deque(maxlen=cap)` under the length invariant). -/
def windowAppend (cap : ℕ) (xs : List α) (x : α) : List α :=
  let ys := xs ++ [x]
  if cap < ys.length then ys.drop 1 else ys

/-- Guarded division: `some (a / b)` unless `b = 0`, in which case the Python
source would raise `ZeroDivisionError` (modelled as `none`). -/
def qdiv? (a b : ℚ) : Option ℚ := if b = 0 then none else some (a / b)

/-- Raw autocorrelation at lag `k`: entry `k` of the nonnegative-lag half of
`np.correlate(v, v, mode='full')`, i.e. `Σ_i v[i] * v[i+k]`. -/
def autoc (v : List ℚ) (k : ℕ) : ℚ :=
  (((List.range (v.length - k))).map (fun i => v.getD i 0 * v.getD (i + k) 0)).sum

/-!
**`ml_anomaly_detector.py` — data model**

`memory_data` dictionaries are embedded as structures; only the fields the
detector reads are kept.
-/

/-- `memory_data['system']['physical']` as read by `extract_features`. -/
structure PhysMem where
  total : ℚ
  available : ℚ
  used : ℚ
  percent : ℚ
deriving DecidableEq

/-- One entry of `memory_data['processes']`. -/
structure ProcMem where
  rss : ℚ
  percent : ℚ
deriving DecidableEq

/-- The parts of `memory_data` consumed by `MemoryAnomalyDetector`. -/
structure MemoryData where
  timestamp : String
  physical : PhysMem
  swapPercent : ℚ
  processes : List ProcMem
deriving DecidableEq

/-- One entry of `self.memory_sequences['global']`. -/
structure SeqEntry where
  timestamp : String
  features : List ℚ
deriving DecidableEq

/-- `item['features'][0]`: the primary (system memory percent) feature of a
stored sequence entry (feature vectors from `extract_features` always have
length 8, so index 0 is present). -/
def f0 (e : SeqEntry) : ℚ := e.features.getD 0 0

/-- Tagged pattern records produced by `detect_trends` / `detect_ml_patterns`
(Python dictionaries with a `'type'` key). -/
inductive Pattern where
  | increasing (slope : ℚ) (severity : String)
  | decreasing (slope : ℚ) (severity : String)
  | periodic (period : ℕ) (strength : ℚ)
  | highVariability (features : List ℕ)
deriving DecidableEq

/-- The `'type'` string of a pattern record. -/
def Pattern.ptype : Pattern → String
  | .increasing _ _ => "INCREASING_MEMORY_USAGE"
  | .decreasing _ _ => "DECREASING_MEMORY_USAGE"
  | .periodic _ _ => "PERIODIC_PATTERN"
  | .highVariability _ => "HIGH_VARIABILITY"

/-- Prediction records from `simple_predictions` / `ml_predictions`. -/
inductive Prediction where
  | simple (time_ahead : ℕ) (predicted : ℚ) (confidence : String)
  | ml (feature_index : ℕ) (trend_slope : ℚ) (horizon : String) (confidence : String)
deriving DecidableEq

/-- The dictionary returned by `detect_memory_patterns` and its helpers.
The LEARNING result carries no `'method'` key (`method := none`); the
fallback result additionally carries an `'error'` key. -/
structure DetectResult where
  anomaly_score : ℚ
  status : String
  patterns : List Pattern
  predictions : List Prediction
  method : Option String
  error : Option String
deriving DecidableEq

/-- A model backend (`StandardScaler` + `IsolationForest`): given the
historical feature rows and the current feature vector it either returns
`(decision_function score, predict == -1)` or raises (`Except.error`).
`SKLEARN_AVAILABLE = False` is modelled by passing `none` for the backend. -/
abbrev Backend := List (List ℚ) → List ℚ → Except String (ℚ × Bool)

/-!
**`ml_anomaly_detector.py` — functions**
-/

/-- `MemoryAnomalyDetector.extract_features`.  The two unguarded divisions
(`available / total` and `available / (total - used)`) raise
`ZeroDivisionError` on a zero denominator, hence the `Option`; `np.std` of
the process percents is `s` applied to their variance. -/
def extract_features (s : ℚ → ℚ) (d : MemoryData) : Option (List ℚ) := do
  let f2 ← qdiv? d.physical.available d.physical.total
  let procFeats ← match d.processes with
    | [] => some [0, 0, 0, 0]
    | ps => do
      let totalProcMem := (ps.map ProcMem.rss).sum
      let r ← qdiv? totalProcMem d.physical.total
      some [(ps.length : ℚ), r, listMax (ps.map ProcMem.percent),
        s (listVar (ps.map ProcMem.percent))]
  let frag ← if 0 < d.physical.total then
      (qdiv? d.physical.available (d.physical.total - d.physical.used)).map
        (fun r => max 0 (min 1 (1 - r)))
    else some 0
  return [d.physical.percent, f2, d.swapPercent] ++ procFeats ++ [frag]

/-- The z-scores computed inside `simple_anomaly_detection`: one per feature
whose historical standard deviation (`s` of the column variance) is positive;
features with zero std contribute nothing.  `zip` truncates to the shorter of
the current vector and the column count. -/
def zscores (s : ℚ → ℚ) (current : List ℚ) (hist : List (List ℚ)) : List ℚ :=
  (List.range (min current.length (ncols hist))).filterMap (fun i =>
    let sd := s (listVar (col hist i))
    if 0 < sd then some (|current.getD i 0 - listMean (col hist i)| / sd) else none)

/-- `MemoryAnomalyDetector.simple_anomaly_detection`: returns
`(anomaly_score, status)`. -/
def simple_anomaly_detection (s : ℚ → ℚ) (current : List ℚ) (hist : List (List ℚ)) :
    ℚ × String :=
  if hist.length < 5 then (0, "Insufficient historical data")
  else
    let zs := zscores s current hist
    if zs.isEmpty then (0, "NORMAL")
    else
      let mx := listMax zs
      let av := listMean zs
      if 3 < mx then (mx, "HIGH_ANOMALY")
      else if 2 < mx then (mx, "MEDIUM_ANOMALY")
      else if 3 / 2 < av then (av, "LOW_ANOMALY")
      else (av, "NORMAL")

/-- The peak scan of `detect_trends`: indices `i` in `range(2, len(autocorr) - 2)`
(the nonnegative-lag half has `len(autocorr) = len(v)`) whose autocorrelation
strictly exceeds both neighbours. -/
def codePeaks (v : List ℚ) : List ℕ :=
  (List.range' 2 (v.length - 4)).filter (fun i =>
    decide (autoc v (i - 1) < autoc v i) && decide (autoc v (i + 1) < autoc v i))

/-- The periodicity part of `detect_trends`: first peak as period, maximum
autocorrelation over all peaks as strength (requires `len(autocorr) > 5`). -/
def periodicDetect (v : List ℚ) : Option (ℕ × ℚ) :=
  if 5 < v.length then
    match codePeaks v with
    | [] => none
    | p :: ps => some (p, listMax ((p :: ps).map (autoc v)))
  else none

/-- `MemoryAnomalyDetector.detect_trends`. -/
def detect_trends (seq : List SeqEntry) : List Pattern :=
  if seq.length < 5 then []
  else
    let memory_usage := (lastN 10 seq).map f0
    let trendPats :=
      if 5 ≤ memory_usage.length then
        let slope := olsSlope memory_usage
        if 1 < slope then [.increasing slope (if 5 < slope then "HIGH" else "MEDIUM")]
        else if slope < -1 then [.decreasing slope "LOW"]
        else []
      else []
    let periodicPats :=
      if 20 ≤ seq.length then
        match periodicDetect ((lastN 20 seq).map f0) with
        | some (p, st) => [.periodic p st]
        | none => []
      else []
    trendPats ++ periodicPats

/-- `MemoryAnomalyDetector.simple_predictions`. -/
def simple_predictions (seq : List SeqEntry) : List Prediction :=
  if seq.length < 5 then []
  else
    let recent := (lastN 5 seq).map f0
    if 3 ≤ recent.length then
      let slope := olsSlope recent
      let intercept := olsIntercept recent
      (List.range' 1 3).map (fun i =>
        .simple (i * 30) (max 0 (min 100 (slope * ((recent.length : ℚ) + i - 1) + intercept)))
          (if 5 < |slope| then "LOW" else "MEDIUM"))
    else []

/-- `MemoryAnomalyDetector.detect_ml_patterns`: only `HIGH_VARIABILITY`
records are ever produced (the enclosed try/except body is pure here). -/
def detect_ml_patterns (s : ℚ → ℚ) (X : List (List ℚ)) : List Pattern :=
  if X.length < 10 then []
  else
    let hv := (List.range (ncols X)).filter (fun i =>
      let m := listMean (col X i)
      let sd := s (listVar (col X i))
      decide (1 / 2 * m < sd) && decide ((1 : ℚ) / 10 < sd))
    if hv.isEmpty then [] else [.highVariability hv]

/-- `MemoryAnomalyDetector.ml_predictions`. -/
def ml_predictions (X : List (List ℚ)) : List Prediction :=
  if X.length < 5 then []
  else
    let recent := lastN 5 X
    (List.range (ncols X)).filterMap (fun j =>
      let values := col recent j
      if 3 ≤ values.length then
        let slope := olsSlope values
        if (1 : ℚ) / 10 < |slope| then some (.ml j slope "5_minutes" "MEDIUM") else none
      else none)

/-- `MemoryAnomalyDetector.ml_anomaly_detection`: the whole fit/score is in a
`try`; an `Except.error` from the backend is caught and the call falls back
to `simple_anomaly_detection`, tagging the result `'statistical_fallback'`. -/
def ml_anomaly_detection (s : ℚ → ℚ) (outcome : Except String (ℚ × Bool))
    (current : List ℚ) (hist : List (List ℚ)) : DetectResult :=
  match outcome with
  | .ok (score, isAnomaly) =>
    { anomaly_score := score
      status := if isAnomaly then "ANOMALY_DETECTED" else "NORMAL"
      patterns := detect_ml_patterns s hist
      predictions := ml_predictions hist
      method := some "machine_learning"
      error := none }
  | .error e =>
    let r := simple_anomaly_detection s current hist
    { anomaly_score := r.1
      status := r.2
      patterns := []
      predictions := []
      method := some "statistical_fallback"
      error := some e }

/-- The result returned on the statistical path of `detect_memory_patterns`. -/
def statisticalResult (s : ℚ → ℚ) (current : List ℚ) (seqAfter : List SeqEntry) :
    DetectResult :=
  let hist := seqAfter.dropLast.map SeqEntry.features
  let r := simple_anomaly_detection s current hist
  { anomaly_score := r.1
    status := r.2
    patterns := detect_trends seqAfter
    predictions := simple_predictions seqAfter
    method := some "statistical"
    error := none }

/-- The cold-start result of `detect_memory_patterns`. -/
def learningResult : DetectResult :=
  { anomaly_score := 0
    status := "LEARNING"
    patterns := []
    predictions := []
    method := none
    error := none }

/-- `MemoryAnomalyDetector.detect_memory_patterns`, with the per-entity
sequence passed explicitly; returns the updated sequence together with the
result dictionary (`none` models an uncaught `ZeroDivisionError` from
`extract_features`). -/
def detect_memory_patterns (s : ℚ → ℚ) (backend : Option Backend)
    (seq : List SeqEntry) (d : MemoryData) : Option (List SeqEntry × DetectResult) :=
  match extract_features s d with
  | none => none
  | some current =>
    let seqAfter := windowAppend 100 seq ⟨d.timestamp, current⟩
    if seqAfter.length < 5 then some (seqAfter, learningResult)
    else
      let hist := seqAfter.dropLast.map SeqEntry.features
      match backend with
      | some m =>
        if 10 ≤ hist.length then
          some (seqAfter, ml_anomaly_detection s (m hist current) current hist)
        else some (seqAfter, statisticalResult s current seqAfter)
      | none => some (seqAfter, statisticalResult s current seqAfter)

/-!
**MD5 (RFC 1321)**

`process_tracker.py` hashes the canonical JSON serialisation of the DNA
statistics with `hashlib.md5(...).hexdigest()`.  The digest is implemented
here over byte lists (`ℕ` values < 256), with 32-bit words as `ℕ` reduced
modulo `2^32`.
-/

/-- Addition modulo `2^32`. -/
def add32 (a b : ℕ) : ℕ := (a + b) % 4294967296

/-- Bitwise complement of a 32-bit word. -/
def not32 (x : ℕ) : ℕ := 4294967295 - x

/-- Left rotation of a 32-bit word by `n` bits (`0 < n < 32`). -/
def rotl32 (x n : ℕ) : ℕ := ((x <<< n) + (x >>> (32 - n))) % 4294967296

/-- The 64 MD5 sine-derived constants `⌊2^32 · |sin (i+1)|⌋`. -/
def md5K : List ℕ :=
  [3614090360, 3905402710, 606105819, 3250441966,
   4118548399, 1200080426, 2821735955, 4249261313,
   1770035416, 2336552879, 4294925233, 2304563134,
   1804603682, 4254626195, 2792965006, 1236535329,
   4129170786, 3225465664, 643717713, 3921069994,
   3593408605, 38016083, 3634488961, 3889429448,
   568446438, 3275163606, 4107603335, 1163531501,
   2850285829, 4243563512, 1735328473, 2368359562,
   4294588738, 2272392833, 1839030562, 4259657740,
   2763975236, 1272893353, 4139469664, 3200236656,
   681279174, 3936430074, 3572445317, 76029189,
   3654602809, 3873151461, 530742520, 3299628645,
   4096336452, 1126891415, 2878612391, 4237533241,
   1700485571, 2399980690, 4293915773, 2240044497,
   1873313359, 4264355552, 2734768916, 1309151649,
   4149444226, 3174756917, 718787259, 3951481745]

/-- The 64 MD5 per-round left-rotation amounts. -/
def md5S : List ℕ :=
  [7, 12, 17, 22, 7, 12, 17, 22, 7, 12, 17, 22, 7, 12, 17, 22,
   5, 9, 14, 20, 5, 9, 14, 20, 5, 9, 14, 20, 5, 9, 14, 20,
   4, 11, 16, 23, 4, 11, 16, 23, 4, 11, 16, 23, 4, 11, 16, 23,
   6, 10, 15, 21, 6, 10, 15, 21, 6, 10, 15, 21, 6, 10, 15, 21]

/-- One MD5 round: state `(A, B, C, D)` and round index `i` against the
16-word message block `M`. -/
def md5Round (M : List ℕ) (st : ℕ × ℕ × ℕ × ℕ) (i : ℕ) : ℕ × ℕ × ℕ × ℕ :=
  let (a, b, c, d) := st
  let f :=
    if i < 16 then (b &&& c) ||| (not32 b &&& d)
    else if i < 32 then (d &&& b) ||| (not32 d &&& c)
    else if i < 48 then b ^^^ c ^^^ d
    else c ^^^ (b ||| not32 d)
  let g :=
    if i < 16 then i
    else if i < 32 then (5 * i + 1) % 16
    else if i < 48 then (3 * i + 5) % 16
    else (7 * i) % 16
  let t := add32 (add32 (add32 a f) (md5K.getD i 0)) (M.getD g 0)
  (d, add32 b (rotl32 t (md5S.getD i 0)), b, c)

/-- The first 64 bytes of a padded message as 16 little-endian 32-bit words. -/
def leWords (bs : List ℕ) : List ℕ :=
  (List.range 16).map (fun j =>
    bs.getD (4 * j) 0 + 256 * bs.getD (4 * j + 1) 0 +
    65536 * bs.getD (4 * j + 2) 0 + 16777216 * bs.getD (4 * j + 3) 0)

/-- MD5 padding: `0x80`, zeros to 56 mod 64, then the bit length as eight
little-endian bytes. -/
def md5Pad (msg : List ℕ) : List ℕ :=
  let zeros := (56 + 64 - (msg.length + 1) % 64) % 64
  msg ++ [128] ++ List.replicate zeros 0 ++
    (List.range 8).map (fun j => ((8 * msg.length) >>> (8 * j)) % 256)

/-- Process `n` 64-byte chunks of an already padded message. -/
def md5Chunks : ℕ → List ℕ → ℕ × ℕ × ℕ × ℕ → ℕ × ℕ × ℕ × ℕ
  | 0, _, st => st
  | n + 1, bs, st =>
    let M := leWords (bs.take 64)
    let (a, b, c, d) := st
    let r := (List.range 64).foldl (md5Round M) st
    md5Chunks n (bs.drop 64) (add32 a r.1, add32 b r.2.1, add32 c r.2.2.1, add32 d r.2.2.2)

/-- Lowercase hexadecimal digit: `0`–`9` for values below ten, `a`–`f`
otherwise. -/
def hexDigit (n : ℕ) : Char :=
  if n < 10 then Char.ofNat (48 + n) else Char.ofNat (87 + n)

/-- A byte as two lowercase hex characters. -/
def byteHex (b : ℕ) : List Char := [hexDigit (b / 16), hexDigit (b % 16)]

/-- A 32-bit word as eight hex characters, little-endian byte order. -/
def wordHexLE (w : ℕ) : List Char :=
  byteHex (w % 256) ++ byteHex (w / 256 % 256) ++
  byteHex (w / 65536 % 256) ++ byteHex (w / 16777216 % 256)

/-- `hashlib.md5(bytes).hexdigest()`. -/
def md5hex (msg : List ℕ) : String :=
  let padded := md5Pad msg
  let r := md5Chunks (padded.length / 64) padded (1732584193, 4023233417, 2562383102, 271733878)
  String.mk (wordHexLE r.1 ++ wordHexLE r.2.1 ++ wordHexLE r.2.2.1 ++ wordHexLE r.2.2.2)

/-- Bytes of an ASCII string (`str.encode()` for the ASCII payloads used
here). -/
def strBytes (t : String) : List ℕ := t.toList.map Char.toNat

/-- `hashlib.md5(t.encode()).hexdigest()`. -/
def md5str (t : String) : String := md5hex (strBytes t)

/-!
**`process_tracker.py` — DNA fingerprinting**
-/

/-- One entry of a `ProcessMemoryTracker` history (`get_detailed_process_info`
output; the timestamp and name fields are irrelevant to the statistics). -/
structure HistEntry where
  rss : ℚ
  vms : ℚ
  shared : ℚ
  data_segment : ℚ
  stack_segment : ℚ
  memory_percent : ℚ
  cpu_percent : ℚ
  num_threads : ℚ
  memory_maps_count : ℚ
deriving DecidableEq

/-- The feature-vector extraction loop of `calculate_process_dna`: entries
with `rss <= 0` are skipped (the inner `if rss > 0 else 0` guards are
unreachable given the outer filter). -/
def featuresOf (history : List HistEntry) : List (List ℚ) :=
  history.filterMap (fun e =>
    if 0 < e.rss then
      some [e.rss, e.vms, e.shared / e.rss, e.data_segment / e.rss, e.stack_segment / e.rss,
        e.memory_percent, e.cpu_percent, e.num_threads, e.memory_maps_count]
    else none)

/-- `np.corrcoef(xs, ys)[0, 1]`: Pearson correlation; `none` models the NaN
produced when either series has zero variance. -/
def corrcoefQ (s : ℚ → ℚ) (xs ys : List ℚ) : Option ℚ :=
  let mx := listMean xs
  let my := listMean ys
  let sxy := ((xs.zip ys).map (fun p => (p.1 - mx) * (p.2 - my))).sum
  let sxx := (xs.map (fun x => (x - mx) ^ 2)).sum
  let syy := (ys.map (fun y => (y - my) ^ 2)).sum
  if sxx = 0 ∨ syy = 0 then none else some (sxy / s (sxx * syy))

/-- `ProcessMemoryTracker.calculate_growth_rate`: OLS slope over
`(index, value)` pairs divided by the mean (0 if the mean is not positive,
and 0 for fewer than two values). -/
def calculate_growth_rate (memory_values : List ℚ) : ℚ :=
  if memory_values.length < 2 then 0
  else if 0 < listMean memory_values then olsSlope memory_values / listMean memory_values
  else 0

/-- `ProcessMemoryTracker.calculate_pattern_complexity`: per-column std of
the max-normalised feature matrix (`+ 1e-10` in the denominator), averaged. -/
def calculate_pattern_complexity (s : ℚ → ℚ) (X : List (List ℚ)) : ℚ :=
  listMean ((List.range (ncols X)).map (fun j =>
    let c := col X j
    let denom := listMax c + 1 / 10000000000
    s (listVar (c.map (fun x => x / denom)))))

/-- The `dna_pattern` dictionary of `calculate_process_dna`.
`cpu_correlation` is `Option ℚ` because `np.corrcoef` yields NaN (serialised
as `NaN`) when a series has zero variance. -/
structure DnaPattern where
  mean_rss : ℚ
  std_rss : ℚ
  mean_vms : ℚ
  std_vms : ℚ
  avg_shared_ratio : ℚ
  avg_data_ratio : ℚ
  avg_stack_ratio : ℚ
  memory_variability : ℚ
  cpu_correlation : Option ℚ
  thread_stability : ℚ
  map_count_avg : ℚ
  growth_rate : ℚ
  pattern_complexity : ℚ
deriving DecidableEq

/-- The statistics payload computed from a nonempty feature matrix. -/
def dnaPatternOf (s : ℚ → ℚ) (fs : List (List ℚ)) : DnaPattern :=
  { mean_rss := listMean (col fs 0)
    std_rss := s (listVar (col fs 0))
    mean_vms := listMean (col fs 1)
    std_vms := s (listVar (col fs 1))
    avg_shared_ratio := listMean (col fs 2)
    avg_data_ratio := listMean (col fs 3)
    avg_stack_ratio := listMean (col fs 4)
    memory_variability := s (listVar (col fs 5))
    cpu_correlation := if 1 < fs.length then corrcoefQ s (col fs 0) (col fs 6) else some 0
    thread_stability := s (listVar (col fs 7))
    map_count_avg := listMean (col fs 8)
    growth_rate := calculate_growth_rate (col fs 0)
    pattern_complexity := calculate_pattern_complexity s fs }

/-- Rendering of a statistic value in the JSON payload.  Under the
exact-rational idealisation, integral values print the way `repr` prints
integral Python floats (`"2.0"`); non-integral rationals are rendered
injectively as `num/den` (Python instead prints the shortest float
round-trip decimal — also injective on distinct values). -/
def qRepr (q : ℚ) : String :=
  if q.den = 1 then toString q.num ++ ".0" else toString q.num ++ "/" ++ toString q.den

/-- Rendering of the possibly-NaN correlation (`json.dumps(float('nan'))`
produces the token `NaN`). -/
def qReprOpt : Option ℚ → String
  | none => "NaN"
  | some q => qRepr q

/-- `json.dumps(dna_pattern, sort_keys=True)`: key-sorted canonical JSON with
`", "` and `": "` separators. -/
def dnaString : DnaPattern → String
  | ⟨mrss, srss, mvms, svms, ashr, adr, astr, mv, cc, ts, mca, gr, pc⟩ =>
    "\x7b\"avg_data_ratio\": " ++ qRepr adr ++
    ", \"avg_shared_ratio\": " ++ qRepr ashr ++
    ", \"avg_stack_ratio\": " ++ qRepr astr ++
    ", \"cpu_correlation\": " ++ qReprOpt cc ++
    ", \"growth_rate\": " ++ qRepr gr ++
    ", \"map_count_avg\": " ++ qRepr mca ++
    ", \"mean_rss\": " ++ qRepr mrss ++
    ", \"mean_vms\": " ++ qRepr mvms ++
    ", \"memory_variability\": " ++ qRepr mv ++
    ", \"pattern_complexity\": " ++ qRepr pc ++
    ", \"std_rss\": " ++ qRepr srss ++
    ", \"std_vms\": " ++ qRepr svms ++
    ", \"thread_stability\": " ++ qRepr ts ++ "\x7d"

/-- The `{'hash': ..., 'pattern': ...}` value returned by
`calculate_process_dna`. -/
structure Dna where
  hash : String
  pattern : DnaPattern
deriving DecidableEq

/-- `ProcessMemoryTracker.calculate_process_dna`: `none` for fewer than 5
history entries or an empty feature list; otherwise the statistics pattern
and the MD5 hex digest of its canonical JSON serialisation. -/
def calculate_process_dna (s : ℚ → ℚ) (history : List HistEntry) : Option Dna :=
  if history.length < 5 then none
  else
    let fs := featuresOf history
    if fs.isEmpty then none
    else
      let p := dnaPatternOf s fs
      some { hash := md5str (dnaString p), pattern := p }

/-- The `MEMORY_LEAK` anomaly check of
`ProcessMemoryTracker.detect_memory_anomalies`: fires above growth rate
0.05, severity `HIGH` above 0.1 and `MEDIUM` otherwise. -/
def leakAnomalyCheck (growth_rate : ℚ) : Option (String × ℚ) :=
  if 1 / 20 < growth_rate then
    some ((if 1 / 10 < growth_rate then "HIGH" else "MEDIUM"), growth_rate)
  else none

/-!
**`memory_monitor.py` — leak detection and fingerprint ratios**
-/

/-- The leak record built by `MemoryMonitor.detect_memory_leak` for one
process (growth expressed in percent). -/
structure LeakReport where
  growth_percent : ℚ
  risk_level : String
deriving DecidableEq

/-- One iteration of `MemoryMonitor.detect_memory_leak` for a single process:
the observed `rss` is appended unconditionally to the process history
(capacity-100 deque) and a leak is reported when the slope-over-mean growth
exceeds 5 percent.  Returns the updated history and the optional report. -/
def detect_memory_leak_step (hist : List ℚ) (rss : ℚ) : List ℚ × Option LeakReport :=
  let h := windowAppend 100 hist rss
  if 10 ≤ h.length then
    if 1 < h.length then
      let avg_increase := olsSlope h / listMean h * 100
      if 5 < avg_increase then
        (h, some { growth_percent := avg_increase
                   risk_level := if 10 < avg_increase then "HIGH" else "MEDIUM" })
      else (h, none)
    else (h, none)
  else (h, none)

/-- The process fields read by `calculate_memory_fingerprint`. -/
structure ProcFull where
  rss : ℚ
  vms : ℚ
  shared : ℚ
  data : ℚ
  stack : ℚ
deriving DecidableEq

/-- The four ratios of `MemoryMonitor.calculate_memory_fingerprint`; every
ratio whose denominator is not positive is defined as 0. -/
structure MemFingerprint where
  memory_ratio : ℚ
  shared_ratio : ℚ
  data_ratio : ℚ
  stack_ratio : ℚ
deriving DecidableEq

/-- `MemoryMonitor.calculate_memory_fingerprint`. -/
def calculate_memory_fingerprint (p : ProcFull) : MemFingerprint :=
  { memory_ratio := if 0 < p.vms then p.rss / p.vms else 0
    shared_ratio := if 0 < p.rss then p.shared / p.rss else 0
    data_ratio := if 0 < p.rss then p.data / p.rss else 0
    stack_ratio := if 0 < p.rss then p.stack / p.rss else 0 }

/-!
**Concrete inputs used by the claims**
-/

/-- A steady process observation: constant rss/vms, `shared = rss`. -/
def steadyEntry : HistEntry :=
  { rss := 1000000000, vms := 2000000000, shared := 1000000000, data_segment := 0
    stack_segment := 0, memory_percent := 50, cpu_percent := 25, num_threads := 4
    memory_maps_count := 10 }

/-- Eight identical steady observations. -/
def histC7A : List HistEntry := List.replicate 8 steadyEntry

/-- The same history with the first two `shared` values perturbed by
`±1000` bytes (out of `10^9`), leaving every DNA statistic unchanged except
`pattern_complexity`, which moves by about `5.6e-8`. -/
def histC7B : List HistEntry :=
  { steadyEntry with shared := 1000001000 } ::
  { steadyEntry with shared := 999999000 } :: List.replicate 6 steadyEntry

/-- `histC7A` with a ninth, zero-rss observation appended: the feature
extraction filter drops it, so all DNA statistics coincide with `histC7A`. -/
def histC7A0 : List HistEntry := histC7A ++ [{ steadyEntry with rss := 0 }]

/-- Modelled from the spec: §4.4 speaks of "fixed-precision rounded
statistics" but names no precision and `calculate_process_dna` rounds
nothing; rounding to 6 decimal places stands in for the spec's fixed
precision. -/
def round6 (q : ℚ) : ℤ := round (q * 1000000)

/-- A DNA pattern with every statistic rounded to 6 decimal places
(the NaN correlation stays `none`). -/
def roundedPattern : DnaPattern → List (Option ℤ)
  | ⟨mrss, srss, mvms, svms, ashr, adr, astr, mv, cc, ts, mca, gr, pc⟩ =>
    [some (round6 mrss), some (round6 srss), some (round6 mvms), some (round6 svms),
     some (round6 ashr), some (round6 adr), some (round6 astr), some (round6 mv),
     cc.map round6, some (round6 ts), some (round6 mca), some (round6 gr),
     some (round6 pc)]

/-- Five historical feature rows with two features; both columns have mean 10
and variance 4 (std 2). -/
def histC1 : List (List ℚ) := [[13, 13], [7, 7], [11, 11], [9, 9], [10, 10]]

/-- The §8 leak sequence (≈5 percent growth per step). -/
def seqC5 : List ℚ := [1000, 1050, 1102, 1157, 1215, 1276, 1339, 1406, 1477, 1551]

/-- A 20-sample series whose autocorrelation has its first peak at lag 2
(value 1) but a much larger peak at lag 5 (value 25). -/
def spikesC6 : List ℚ := [1, 0, 1, 0, 0, 0, 0, 0, 5, 0, 0, 0, 0, 5, 0, 0, 0, 0, 0, 0]

/-- A sinusoidal series of period 5 over 20 samples
(`1000 * sin(2 * pi * k / 5)` rounded to integers). -/
def sineC6 : List ℚ :=
  [0, 951, 588, -588, -951, 0, 951, 588, -588, -951,
   0, 951, 588, -588, -951, 0, 951, 588, -588, -951]

/-- A well-formed system sample: positive total, `used ≠ total`, two
processes. -/
def sysOk : MemoryData :=
  { timestamp := "t0"
    physical := { total := 8000, available := 4000, used := 4000, percent := 50 }
    swapPercent := 10
    processes := [{ rss := 500, percent := 6 }, { rss := 250, percent := 3 }] }

/-- A sample reporting a zero system-memory total. -/
def zeroTotalData : MemoryData :=
  { timestamp := "t1"
    physical := { total := 0, available := 0, used := 0, percent := 0 }
    swapPercent := 0
    processes := [] }

/-- A sample in which used memory equals the total (`total - used = 0`). -/
def fullUsedData : MemoryData :=
  { timestamp := "t2"
    physical := { total := 8000, available := 100, used := 8000, percent := 100 }
    swapPercent := 0
    processes := [] }

/-- A sample carrying a negative metric value (negative process rss). -/
def negMetricData : MemoryData :=
  { timestamp := "t3"
    physical := { total := 8000, available := 4000, used := 4000, percent := 50 }
    swapPercent := 10
    processes := [{ rss := -500, percent := -6 }] }

/-- Eleven stored sequence entries (eight features each), enough to put the
detector on the model path. -/
def seqLong : List SeqEntry :=
  List.replicate 11 ⟨"t", [50, 1 / 2, 10, 2, 3 / 32, 6, 3 / 2, 0]⟩

/-- A model backend whose fit always raises. -/
def failingBackend : Backend := fun _ _ => .error "fit failed"

/-- A model backend that always returns score `-1/10`, anomalous. -/
def okBackend : Backend := fun _ _ => .ok (-1 / 10, true)


/-- Modelled from the spec (§4.3 step 2), for comparison with
`periodicDetect`: the period is the smallest positive lag that is a strict
local maximum of the autocorrelation half (lag 0 excluded; every positive
lag whose two neighbours exist is a candidate), and the strength is **that
first peak's** autocorrelation value. -/
def specPeriodic (v : List ℚ) : Option (ℕ × ℚ) :=
  match (List.range' 1 (v.length - 2)).filter (fun i =>
      decide (autoc v (i - 1) < autoc v i) && decide (autoc v (i + 1) < autoc v i)) with
  | [] => none
  | p :: _ => some (p, autoc v p)

/-!
**Helper lemmas**
-/

/-- Appending to a window of length at most `cap` keeps the length at most
`cap`. -/
lemma windowAppend_length_le {α : Type} (cap : ℕ) (xs : List α) (x : α)
    (h : xs.length ≤ cap) : (windowAppend cap xs x).length ≤ cap := by
  unfold windowAppend
  simp only [List.length_append, List.length_singleton]
  split <;> simp <;> omega

/-- The head of a filtered `range'` is minimal: every smaller in-range index
fails the predicate. -/
lemma filter_range'_head_min (pred : ℕ → Bool) :
    ∀ (n a : ℕ) (p : ℕ) (ps : List ℕ),
      (List.range' a n).filter pred = p :: ps →
      ∀ k, a ≤ k → k < p → pred k = false := by
  intro n
  induction n with
  | zero => intro a p ps h; simp at h
  | succ m ih =>
    intro a p ps h k hak hkp
    rw [List.range'_succ, List.filter_cons] at h
    by_cases hp : pred a
    · simp only [hp, if_true] at h
      obtain ⟨rfl, _⟩ := List.cons_eq_cons.mp h
      omega
    · simp only [hp, Bool.false_eq_true, if_false] at h
      rcases Nat.eq_or_lt_of_le hak with rfl | hlt
      · simpa using hp
      · exact ih (a + 1) p ps h k hlt hkp

/-- Members of a filtered `range'` satisfy the predicate and the range
bounds. -/
lemma filter_range'_mem (pred : ℕ → Bool) (a n p : ℕ)
    (h : p ∈ (List.range' a n).filter pred) :
    a ≤ p ∧ p < a + n ∧ pred p = true := by
  rcases List.mem_filter.mp h with ⟨hmem, hpred⟩
  rcases List.mem_range'_1.mp hmem with ⟨h1, h2⟩
  exact ⟨h1, h2, hpred⟩


/-!
**C1 — statistical classification and reported score**
-/

set_option maxRecDepth 100000 in
unseal Rat.add Rat.mul Rat.inv Rat.sub in
/-- **C1 (counterexample).**  The claim states that the reported anomaly
score equals `max_z` in every classification case.  For the history
`histC1` (five samples, both feature columns mean 10 / std 2) and current
vector `[14, 10]`, the z-scores are `[2, 0]`: `max_z = 2`, so the status is
`NORMAL`, but the reported score is the *mean* z-score 1, not `max_z = 2`. -/
theorem C1_counterexample :
    simple_anomaly_detection ratSqrt [14, 10] histC1 = (1, "NORMAL") ∧
    listMax (zscores ratSqrt [14, 10] histC1) = 2 ∧
    (1 : ℚ) ≠ 2 :=
  ⟨by decide, by decide, by norm_num⟩

set_option maxRecDepth 100000 in
unseal Rat.add Rat.mul Rat.inv Rat.sub in
/-- **C1 (amended).**  For every history of at least 5 samples scored by the
statistical method in which some feature has positive standard deviation:
the status is `HIGH_ANOMALY` iff `max_z > 3`, `MEDIUM_ANOMALY` iff
`2 < max_z ≤ 3`, `LOW_ANOMALY` iff `max_z ≤ 2` and `mean_z > 1.5`, and
`NORMAL` iff `max_z ≤ 2` and `mean_z ≤ 1.5`; the reported score is `max_z`
for `HIGH`/`MEDIUM` but the *mean* z-score for `LOW`/`NORMAL`.  A current
value deviating by exactly 3.5 historical standard deviations yields
`HIGH_ANOMALY` with score `max_z = 3.5`. -/
theorem C1_statistical_classification :
    (∀ (s : ℚ → ℚ) (current : List ℚ) (hist : List (List ℚ)),
      5 ≤ hist.length →
      zscores s current hist ≠ [] →
      ((simple_anomaly_detection s current hist).2 = "HIGH_ANOMALY" ↔
        3 < listMax (zscores s current hist)) ∧
      ((simple_anomaly_detection s current hist).2 = "MEDIUM_ANOMALY" ↔
        2 < listMax (zscores s current hist) ∧ listMax (zscores s current hist) ≤ 3) ∧
      ((simple_anomaly_detection s current hist).2 = "LOW_ANOMALY" ↔
        listMax (zscores s current hist) ≤ 2 ∧ 3 / 2 < listMean (zscores s current hist)) ∧
      ((simple_anomaly_detection s current hist).2 = "NORMAL" ↔
        listMax (zscores s current hist) ≤ 2 ∧ listMean (zscores s current hist) ≤ 3 / 2) ∧
      (simple_anomaly_detection s current hist).1 =
        (if 2 < listMax (zscores s current hist) then listMax (zscores s current hist)
         else listMean (zscores s current hist))) ∧
    simple_anomaly_detection ratSqrt [17] [[13], [7], [11], [9], [10]] =
      (7 / 2, "HIGH_ANOMALY") := by
  constructor
  · intro s current hist h5 hz
    have hlen : ¬ hist.length < 5 := by omega
    have hemp : (zscores s current hist).isEmpty = false := by
      simpa [List.isEmpty_iff] using hz
    have hHM : ("HIGH_ANOMALY" : String) ≠ "MEDIUM_ANOMALY" := by decide
    have hHL : ("HIGH_ANOMALY" : String) ≠ "LOW_ANOMALY" := by decide
    have hHN : ("HIGH_ANOMALY" : String) ≠ "NORMAL" := by decide
    have hML : ("MEDIUM_ANOMALY" : String) ≠ "LOW_ANOMALY" := by decide
    have hMN : ("MEDIUM_ANOMALY" : String) ≠ "NORMAL" := by decide
    have hLN : ("LOW_ANOMALY" : String) ≠ "NORMAL" := by decide
    unfold simple_anomaly_detection
    simp only [hlen, if_false, hemp, Bool.false_eq_true]
    split_ifs with h3 h2 h15 <;>
      refine ⟨?_, ?_, ?_, ?_, ?_⟩ <;>
        simp only [Prod.fst, Prod.snd, hHM, hHL, hHN, hML, hMN, hLN, hHM.symm, hHL.symm,
          hHN.symm, hML.symm, hMN.symm, hLN.symm, ne_eq, eq_self_iff_true, true_iff,
          iff_true, false_iff, iff_false, not_and, not_lt, not_le] <;>
      first
        | linarith
        | rfl
        | (intro h; linarith)
        | (exact ⟨by linarith, by linarith⟩)
  · decide

set_option maxRecDepth 100000 in
unseal Rat.add Rat.mul Rat.inv Rat.sub in
/-- **C1 (witness).**  The amended classification theorem applied to the
concrete history `histC1` and current vector `[14, 10]`. -/
theorem C1_statistical_classification_witness :
    (simple_anomaly_detection ratSqrt [14, 10] histC1).2 = "NORMAL" ↔
      listMax (zscores ratSqrt [14, 10] histC1) ≤ 2 ∧
      listMean (zscores ratSqrt [14, 10] histC1) ≤ 3 / 2 :=
  (C1_statistical_classification.1 ratSqrt [14, 10] histC1 (by decide) (by decide)).2.2.2.1

/-!
**C2 — cold start (LEARNING)**
-/

/-- **C2 (confirmed).**  Whenever feature extraction succeeds and the stored
sequence holds fewer than 5 entries after the current sample is appended,
`detect_memory_patterns` returns the LEARNING result: status `LEARNING`,
anomaly score 0, no patterns, no predictions, and no error is raised. -/
theorem C2_learning (s : ℚ → ℚ) (backend : Option Backend) (seq : List SeqEntry)
    (d : MemoryData) (f : List ℚ)
    (hf : extract_features s d = some f)
    (hlen : (windowAppend 100 seq ⟨d.timestamp, f⟩).length < 5) :
    detect_memory_patterns s backend seq d =
      some (windowAppend 100 seq ⟨d.timestamp, f⟩, learningResult) ∧
    learningResult =
      { anomaly_score := 0, status := "LEARNING", patterns := [], predictions := []
        method := none, error := none } := by
  unfold detect_memory_patterns
  rw [hf]
  simp only [hlen, if_true]
  exact ⟨trivial, rfl⟩

set_option maxRecDepth 100000 in
unseal Rat.add Rat.mul Rat.inv Rat.sub in
/-- **C2 (witness).**  The cold-start theorem applied to an empty stored
sequence and a well-formed sample. -/
theorem C2_learning_witness :
    detect_memory_patterns ratSqrt none [] sysOk =
      some (windowAppend 100 [] ⟨sysOk.timestamp, [50, 1 / 2, 10, 2, 3 / 32, 6, 3 / 2, 0]⟩,
        learningResult) ∧
    learningResult =
      { anomaly_score := 0, status := "LEARNING", patterns := [], predictions := []
        method := none, error := none } :=
  C2_learning ratSqrt none [] sysOk [50, 1 / 2, 10, 2, 3 / 32, 6, 3 / 2, 0]
    (by decide) (by decide)

/-!
**C3 — negative metric values are not rejected**
-/

set_option maxRecDepth 100000 in
unseal Rat.add Rat.mul Rat.inv Rat.sub in
/-- **C3 (counterexample).**  The claim states that a sample with a negative
metric value fails with an `InvalidSample` error and leaves the history
unchanged.  In fact no validation exists anywhere on the append path: a
negative rss observation (-7) is appended to the leak-detector history
exactly like any other value — the call returns normally and the window has
grown by one, now containing the negative value. -/
theorem C3_counterexample :
    detect_memory_leak_step [5, 5, 5] (-7) = ([5, 5, 5, -7], none) ∧
    ([5, 5, 5, -7] : List ℚ).length = ([5, 5, 5] : List ℚ).length + 1 ∧
    (-7 : ℚ) < 0 :=
  ⟨by decide, by decide, by norm_num⟩

/-- **C3 (amended).**  Appends never fail and never validate: the
leak-detector history update is exactly `windowAppend` for every rss value
(negative ones included), growing the window by one while below capacity;
likewise `detect_memory_patterns` stores the extracted features of any
sample whose extraction succeeds, negative metrics included. -/
theorem C3_no_validation :
    (∀ (hist : List ℚ) (rss : ℚ),
      (detect_memory_leak_step hist rss).1 = windowAppend 100 hist rss) ∧
    (∀ (hist : List ℚ) (rss : ℚ), hist.length < 100 →
      (detect_memory_leak_step hist rss).1 = hist ++ [rss]) ∧
    (∀ (s : ℚ → ℚ) (backend : Option Backend) (seq : List SeqEntry) (d : MemoryData)
      (f : List ℚ), extract_features s d = some f →
      (detect_memory_patterns s backend seq d).map Prod.fst =
        some (windowAppend 100 seq ⟨d.timestamp, f⟩)) := by
  have step1 : ∀ (hist : List ℚ) (rss : ℚ),
      (detect_memory_leak_step hist rss).1 = windowAppend 100 hist rss := by
    intro hist rss
    simp only [detect_memory_leak_step]
    split_ifs <;> rfl
  refine ⟨step1, ?_, ?_⟩
  · intro hist rss h
    rw [step1]
    unfold windowAppend
    have : ¬ 100 < (hist ++ [rss]).length := by
      simp only [List.length_append, List.length_singleton]
      omega
    simp only [this, if_false]
  · intro s backend seq d f hf
    simp only [detect_memory_patterns, hf]
    split_ifs <;> first | rfl | (cases backend <;> rfl)

set_option maxRecDepth 100000 in
unseal Rat.add Rat.mul Rat.inv Rat.sub in
/-- **C3 (witness).**  The no-validation theorem applied to a three-entry
history and the negative observation -7, and to a sample with a negative
process rss. -/
theorem C3_no_validation_witness :
    (detect_memory_leak_step [5, 5, 5] (-7)).1 = [5, 5, 5] ++ [-7] ∧
    (detect_memory_patterns ratSqrt none [] negMetricData).map Prod.fst =
      some (windowAppend 100 []
        ⟨negMetricData.timestamp, [50, 1 / 2, 10, 1, -500 / 8000, -6, ratSqrt 0, 0]⟩) :=
  ⟨C3_no_validation.2.1 [5, 5, 5] (-7) (by decide),
   C3_no_validation.2.2 ratSqrt none [] negMetricData _ (by decide)⟩

/-!
**C4 — bounded FIFO window**
-/

/-- **C4 (confirmed).**  (i) An append to a window within capacity stays
within capacity; (ii) any sequence of appends starting from the empty window
never exceeds capacity; (iii) for positive capacity, an append to a full
window evicts exactly the oldest entry: the result is the previous window
minus its first element, in order, with the new entry at the end. -/
theorem C4_window_fifo :
    (∀ (α : Type) (cap : ℕ) (xs : List α) (x : α), xs.length ≤ cap →
      (windowAppend cap xs x).length ≤ cap) ∧
    (∀ (α : Type) (cap : ℕ) (ops : List α),
      (ops.foldl (fun acc y => windowAppend cap acc y) []).length ≤ cap) ∧
    (∀ (α : Type) (cap : ℕ) (xs : List α) (x : α), 0 < cap → xs.length = cap →
      windowAppend cap xs x = xs.tail ++ [x]) := by
  refine ⟨fun α => windowAppend_length_le, ?_, ?_⟩
  · intro α cap ops
    suffices h : ∀ acc : List α, acc.length ≤ cap →
        (ops.foldl (fun acc y => windowAppend cap acc y) acc).length ≤ cap by
      exact h [] (by simp)
    induction ops with
    | nil => intro acc hacc; simpa using hacc
    | cons y ys ih =>
      intro acc hacc
      exact ih (windowAppend cap acc y) (windowAppend_length_le cap acc y hacc)
  · intro α cap xs x hcap hfull
    unfold windowAppend
    have hlt : cap < (xs ++ [x]).length := by
      simp only [List.length_append, List.length_singleton]
      omega
    simp only [hlt, if_true]
    have hx : 1 ≤ xs.length := by omega
    rw [List.drop_append_of_le_length hx, List.drop_one]

set_option maxRecDepth 100000 in
unseal Rat.add Rat.mul Rat.inv Rat.sub in
/-- **C4 (witness).**  The FIFO theorem applied at capacity 3: five appends
starting empty stay within 3 entries, and appending 4 to the full window
`[1, 2, 3]` yields `[2, 3, 4]`. -/
theorem C4_window_fifo_witness :
    (([1, 2, 3, 4, 5] : List ℚ).foldl (fun acc y => windowAppend 3 acc y) []).length ≤ 3 ∧
    windowAppend 3 ([1, 2, 3] : List ℚ) 4 = [2, 3, 4] :=
  ⟨C4_window_fifo.2.1 ℚ 3 [1, 2, 3, 4, 5],
   (C4_window_fifo.2.2 ℚ 3 [1, 2, 3] 4 (by decide) (by decide)).trans (by decide)⟩

/-!
**C5 — leak growth-rate classification**
-/

set_option maxRecDepth 100000 in
unseal Rat.add Rat.mul Rat.inv Rat.sub in
/-- **C5 (counterexample).**  The claim states that the sequence
`[1000, 1050, 1102, 1157, 1215, 1276, 1339, 1406, 1477, 1551]` produces a
MEDIUM or HIGH leak (growth rate at least 0.05).  In fact the OLS
slope-over-mean growth rate of this sequence is exactly
`20150 / 414909 ≈ 0.04857 < 0.05`, so no leak is reported at all. -/
theorem C5_counterexample :
    calculate_growth_rate seqC5 = 20150 / 414909 ∧
    calculate_growth_rate seqC5 < 1 / 20 ∧
    leakAnomalyCheck (calculate_growth_rate seqC5) = none :=
  ⟨by decide, by decide, by decide⟩

set_option maxRecDepth 100000 in
unseal Rat.add Rat.mul Rat.inv Rat.sub in
/-- **C5 (amended).**  The leak detector computes growth as OLS slope over
`(index, value)` pairs divided by the mean (for at least two values and a
positive mean), and classifies: `HIGH` iff growth > 0.10, `MEDIUM` iff
0.05 < growth ≤ 0.10, no leak iff growth ≤ 0.05.  For the concrete §8
sequence the growth rate is `20150 / 414909 < 0.05`, so no leak is
reported (not MEDIUM/HIGH as claimed). -/
theorem C5_leak_classification :
    (∀ gr : ℚ,
      (leakAnomalyCheck gr = some ("HIGH", gr) ↔ 1 / 10 < gr) ∧
      (leakAnomalyCheck gr = some ("MEDIUM", gr) ↔ 1 / 20 < gr ∧ gr ≤ 1 / 10) ∧
      (leakAnomalyCheck gr = none ↔ gr ≤ 1 / 20)) ∧
    (∀ vals : List ℚ, 2 ≤ vals.length → 0 < listMean vals →
      calculate_growth_rate vals = olsSlope vals / listMean vals) ∧
    calculate_growth_rate seqC5 = 20150 / 414909 := by
  refine ⟨?_, ?_, by decide⟩
  · intro gr
    unfold leakAnomalyCheck
    split_ifs with h1 h2 <;>
      refine ⟨?_, ?_, ?_⟩ <;>
        simp <;>
        first
          | linarith
          | (intro h; linarith)
          | (exact ⟨by linarith, by linarith⟩)
  · intro vals h2 hmean
    unfold calculate_growth_rate
    have : ¬ vals.length < 2 := by omega
    simp only [this, if_false, hmean, if_true]

set_option maxRecDepth 100000 in
unseal Rat.add Rat.mul Rat.inv Rat.sub in
/-- **C5 (witness).**  The classification theorem applied at growth rate
`3/40` (MEDIUM) and the slope-over-mean formula applied to the §8
sequence. -/
theorem C5_leak_classification_witness :
    (leakAnomalyCheck (3 / 40) = some ("MEDIUM", 3 / 40) ↔
      1 / 20 < (3 / 40 : ℚ) ∧ (3 / 40 : ℚ) ≤ 1 / 10) ∧
    calculate_growth_rate seqC5 = olsSlope seqC5 / listMean seqC5 :=
  ⟨(C5_leak_classification.1 (3 / 40)).2.1,
   C5_leak_classification.2.1 seqC5 (by decide) (by decide)⟩

/-!
**C6 — periodicity detection**
-/

set_option maxRecDepth 100000 in
unseal Rat.add Rat.mul Rat.inv Rat.sub in
/-- **C6 (counterexample).**  The claim states the reported strength is the
first peak's autocorrelation value.  On `spikesC6` the code's first peak is
lag 2 but the reported strength is 25 — the *maximum* autocorrelation over
all peaks (attained at lag 5) — while the spec's first-peak strength is
`autoc spikesC6 2 = 1`. -/
theorem C6_counterexample :
    periodicDetect spikesC6 = some (2, 25) ∧
    specPeriodic spikesC6 = some (2, 1) ∧
    (25 : ℚ) ≠ 1 :=
  ⟨by decide, by decide, by norm_num⟩

set_option maxRecDepth 100000 in
unseal Rat.add Rat.mul Rat.inv Rat.sub in
/-- **C6 (amended).**  On at least 20 samples the detector autocorrelates the
last 20 values, keeps the nonnegative-lag half, and scans lags 2 …
`len - 3` (not all positive lags) for strict local maxima.  Any reported
period `p` is such a local maximum and the smallest candidate lag; the
reported strength is the **maximum** autocorrelation value over all peak
lags (not the first peak's value); no peak means no PERIODIC pattern; a
PERIODIC pattern appears in `detect_trends` output exactly when the
sequence has at least 20 entries and the peak scan succeeds.  For the
period-5 sinusoidal series `sineC6`, the reported period is 5. -/
theorem C6_periodicity :
    (∀ (v : List ℚ) (p : ℕ) (st : ℚ), periodicDetect v = some (p, st) →
      2 ≤ p ∧ p + 3 ≤ v.length ∧
      autoc v (p - 1) < autoc v p ∧ autoc v (p + 1) < autoc v p ∧
      (∀ k, 2 ≤ k → k < p →
        ¬(autoc v (k - 1) < autoc v k ∧ autoc v (k + 1) < autoc v k)) ∧
      st = listMax ((codePeaks v).map (autoc v))) ∧
    (∀ v : List ℚ, codePeaks v = [] → periodicDetect v = none) ∧
    (∀ (seq : List SeqEntry) (p : ℕ) (st : ℚ),
      Pattern.periodic p st ∈ detect_trends seq ↔
        (¬ seq.length < 5 ∧ 20 ≤ seq.length ∧
          periodicDetect ((lastN 20 seq).map f0) = some (p, st))) ∧
    periodicDetect sineC6 = some (5, 7500870) := by
  refine ⟨?_, ?_, ?_, by decide⟩
  · intro v p st h
    unfold periodicDetect at h
    by_cases hlen : 5 < v.length
    · rw [if_pos hlen] at h
      rcases hcp : codePeaks v with _ | ⟨q, qs⟩
      · rw [hcp] at h
        exact absurd h (by simp)
      · rw [hcp] at h
        obtain ⟨hpq, hst⟩ : q = p ∧ listMax ((q :: qs).map (autoc v)) = st := by
          simpa using h
        subst hpq
        have hmem : q ∈ (List.range' 2 (v.length - 4)).filter (fun i =>
            decide (autoc v (i - 1) < autoc v i) && decide (autoc v (i + 1) < autoc v i)) := by
          have : q ∈ codePeaks v := by
            rw [hcp]
            exact List.mem_cons_self q qs
          simpa [codePeaks] using this
        obtain ⟨h2, hlt, hpred⟩ := filter_range'_mem _ 2 (v.length - 4) q hmem
        obtain ⟨hl, hr⟩ := by simpa using hpred
        refine ⟨h2, by omega, hl, hr, ?_, ?_⟩
        · intro k hk2 hkq hklocal
          have hfalse := filter_range'_head_min (fun i =>
            decide (autoc v (i - 1) < autoc v i) && decide (autoc v (i + 1) < autoc v i))
            (v.length - 4) 2 q qs (by simpa [codePeaks] using hcp) k hk2 hkq
          rw [Bool.and_eq_false_iff] at hfalse
          rcases hfalse with hf | hf <;> simp only [decide_eq_false_iff_not] at hf
          · exact hf hklocal.1
          · exact hf hklocal.2
        · exact hst.symm
    · rw [if_neg hlen] at h
      exact absurd h (by simp)
  · intro v hcp
    unfold periodicDetect
    split_ifs with h
    · rw [hcp]
    · rfl
  · intro seq p st
    unfold detect_trends
    have hnotrend : ∀ w : List ℚ, Pattern.periodic p st ∉
        (if 1 < olsSlope w then
          [Pattern.increasing (olsSlope w) (if 5 < olsSlope w then "HIGH" else "MEDIUM")]
         else if olsSlope w < -1 then [Pattern.decreasing (olsSlope w) "LOW"] else []) := by
      intro w
      split_ifs <;> simp
    split_ifs with h5 h20
    · simp [h5]
    · rcases hpd : periodicDetect ((lastN 20 seq).map f0) with _ | ⟨q, r⟩ <;>
        simp_all [hnotrend (List.map f0 (lastN 10 seq))]
      aesop
    · simp_all [hnotrend (List.map f0 (lastN 10 seq))]

set_option maxRecDepth 100000 in
unseal Rat.add Rat.mul Rat.inv Rat.sub in
/-- **C6 (witness).**  The periodicity theorem applied to the sinusoidal
series: the reported period 5 is a strict local maximum of the
autocorrelation. -/
theorem C6_periodicity_witness :
    autoc sineC6 (5 - 1) < autoc sineC6 5 ∧ autoc sineC6 (5 + 1) < autoc sineC6 5 :=
  ⟨(C6_periodicity.1 sineC6 5 7500870 (by decide)).2.2.1,
   (C6_periodicity.1 sineC6 5 7500870 (by decide)).2.2.2.1⟩

/-!
**C7 — DNA fingerprint hashing**
-/

/-- Every DNA value produced by `calculate_process_dna` hashes the canonical
JSON serialisation of its own statistics pattern. -/
lemma calculate_process_dna_hash (s : ℚ → ℚ) (h : List HistEntry) (d : Dna)
    (hd : calculate_process_dna s h = some d) :
    d.hash = md5str (dnaString d.pattern) := by
  simp only [calculate_process_dna] at hd
  split_ifs at hd
  all_goals obtain rfl := Option.some.inj hd
  all_goals rfl

set_option maxRecDepth 1000000 in
set_option maxHeartbeats 1000000 in
unseal Rat.add Rat.mul Rat.inv Rat.sub in
/-- **C7 (counterexample).**  The claim states that two histories whose
statistics agree at the fixed rounding precision hash identically.  The code
rounds nothing: `histC7A` and `histC7B` have all thirteen DNA statistics
equal after rounding to 6 decimal places (they differ only in
`pattern_complexity`, by about `5.6e-8`), yet their MD5 hashes differ. -/
theorem C7_counterexample :
    roundedPattern (dnaPatternOf ratSqrt (featuresOf histC7A)) =
      roundedPattern (dnaPatternOf ratSqrt (featuresOf histC7B)) ∧
    (calculate_process_dna ratSqrt histC7A).map Dna.hash =
      some "00936830ee80ab46801a038e32c0b081" ∧
    (calculate_process_dna ratSqrt histC7B).map Dna.hash =
      some "739ffef5a0f39a5049ceb21454da09aa" ∧
    ("00936830ee80ab46801a038e32c0b081" : String) ≠
      "739ffef5a0f39a5049ceb21454da09aa" :=
  ⟨by decide, by decide, by decide, by decide⟩

set_option maxRecDepth 1000000 in
set_option maxHeartbeats 1000000 in
unseal Rat.add Rat.mul Rat.inv Rat.sub in
/-- **C7 (amended).**  The hash is a function of the exact (unrounded)
statistics: any two histories with identical DNA statistics patterns —
including histories of different lengths, e.g. one padded with zero-rss
entries that the feature filter drops — produce identical hashes; and
histories whose statistics differ at all (even far below any rounding
precision, as `histC7A`/`histC7B` differ only by `5.6e-8` in one statistic)
produce different serialised payloads. -/
theorem C7_hash_determinism :
    (∀ (s : ℚ → ℚ) (h1 h2 : List HistEntry),
      (calculate_process_dna s h1).map Dna.pattern =
        (calculate_process_dna s h2).map Dna.pattern →
      (calculate_process_dna s h1).map Dna.hash =
        (calculate_process_dna s h2).map Dna.hash) ∧
    dnaString (dnaPatternOf ratSqrt (featuresOf histC7A)) ≠
      dnaString (dnaPatternOf ratSqrt (featuresOf histC7B)) := by
  constructor
  · intro s h1 h2 hp
    rcases e1 : calculate_process_dna s h1 with _ | d1 <;>
      rcases e2 : calculate_process_dna s h2 with _ | d2 <;>
      rw [e1, e2] at hp <;> simp at hp ⊢
    rw [calculate_process_dna_hash s h1 d1 e1, calculate_process_dna_hash s h2 d2 e2, hp]
  · decide

set_option maxRecDepth 1000000 in
set_option maxHeartbeats 1000000 in
unseal Rat.add Rat.mul Rat.inv Rat.sub in
/-- **C7 (witness).**  The determinism half applied to `histC7A` and its
zero-rss-padded variant `histC7A0`, whose statistics patterns coincide. -/
theorem C7_hash_determinism_witness :
    (calculate_process_dna ratSqrt histC7A).map Dna.hash =
      (calculate_process_dna ratSqrt histC7A0).map Dna.hash :=
  C7_hash_determinism.1 ratSqrt histC7A histC7A0 (by decide)

/-!
**C8 — feature extractor totality**
-/

set_option maxRecDepth 100000 in
unseal Rat.add Rat.mul Rat.inv Rat.sub in
/-- **C8 (counterexample).**  The claim states extraction returns a feature
vector without raising for every normalization context, including a zero
system-memory total and a zero available-over-remaining denominator.  In
fact `available / total` raises `ZeroDivisionError` when the total is 0, and
`available / (total - used)` raises when used memory equals the total. -/
theorem C8_counterexample :
    extract_features ratSqrt zeroTotalData = none ∧
    extract_features ratSqrt fullUsedData = none :=
  ⟨by decide, by decide⟩

/-- **C8 (amended).**  `extract_features` is *not* total: it raises
(`none`) whenever the system total is 0, and whenever the total is positive
but used memory equals it (fragmentation denominator 0).  In all other
normalization contexts — including an empty process list — it returns a
fixed-length vector of 8 features.  The per-process fingerprint ratios of
`memory_monitor.py`, by contrast, are fully guarded: each ratio with a
non-positive denominator is defined as 0. -/
theorem C8_extractor_partiality :
    (∀ (s : ℚ → ℚ) (d : MemoryData), d.physical.total = 0 →
      extract_features s d = none) ∧
    (∀ (s : ℚ → ℚ) (d : MemoryData), 0 < d.physical.total →
      d.physical.used = d.physical.total → extract_features s d = none) ∧
    (∀ (s : ℚ → ℚ) (d : MemoryData), d.physical.total ≠ 0 →
      (0 < d.physical.total → d.physical.used ≠ d.physical.total) →
      ∃ f, extract_features s d = some f ∧ f.length = 8) ∧
    (∀ p : ProcFull, p.vms ≤ 0 → p.rss ≤ 0 →
      calculate_memory_fingerprint p =
        { memory_ratio := 0, shared_ratio := 0, data_ratio := 0, stack_ratio := 0 }) := by
  refine ⟨?_, ?_, ?_, ?_⟩
  · intro s d h0
    rcases hp : d.processes with _ | ⟨p, ps⟩ <;>
      simp [extract_features, qdiv?, h0, hp]
  · intro s d hpos hused
    have ht : d.physical.total ≠ 0 := ne_of_gt hpos
    rcases hp : d.processes with _ | ⟨p, ps⟩ <;>
      simp [extract_features, qdiv?, ht, hpos, hused, sub_self, hp]
  · intro s d ht hut
    by_cases hpos : 0 < d.physical.total
    · have hd0 : d.physical.total - d.physical.used ≠ 0 :=
        sub_ne_zero.mpr (fun h => (hut hpos) h.symm)
      rcases hp : d.processes with _ | ⟨p, ps⟩ <;>
        simp [extract_features, qdiv?, ht, hpos, hd0, hp]
    · rcases hp : d.processes with _ | ⟨p, ps⟩ <;>
        simp [extract_features, qdiv?, ht, hpos, hp]
  · intro p hv hr
    unfold calculate_memory_fingerprint
    simp [not_lt.mpr hv, not_lt.mpr hr]

set_option maxRecDepth 100000 in
unseal Rat.add Rat.mul Rat.inv Rat.sub in
/-- **C8 (witness).**  The success case applied to a well-formed sample, and
the guarded fingerprint applied to an all-zero process. -/
theorem C8_extractor_partiality_witness :
    (∃ f, extract_features ratSqrt sysOk = some f ∧ f.length = 8) ∧
    calculate_memory_fingerprint { rss := 0, vms := 0, shared := 0, data := 0, stack := 0 } =
      { memory_ratio := 0, shared_ratio := 0, data_ratio := 0, stack_ratio := 0 } :=
  ⟨C8_extractor_partiality.2.2.1 ratSqrt sysOk (by decide) (by decide),
   C8_extractor_partiality.2.2.2 _ (by decide) (by decide)⟩

/-!
**C9 — model-failure fallback**
-/

set_option maxRecDepth 100000 in
unseal Rat.add Rat.mul Rat.inv Rat.sub in
/-- **C9 (counterexample).**  The claim states the fallback result's method
tag is `model_fallback`; the code tags it `statistical_fallback`. -/
theorem C9_counterexample :
    (ml_anomaly_detection ratSqrt (.error "fit failed") [1] [[1]]).method =
      some "statistical_fallback" ∧
    some "statistical_fallback" ≠ some "model_fallback" :=
  ⟨rfl, by decide⟩

/-- **C9 (amended).**  A model-fitting failure never propagates: the very
same call falls back to the statistical method, returning its score and
status with an empty pattern and prediction list, the underlying error
message attached, and the method tag `statistical_fallback` (the spec's
name `model_fallback` does not occur).  The second half lifts this to
`detect_memory_patterns`: when the model path is taken and the backend
raises, the returned result is exactly this fallback result. -/
theorem C9_fallback :
    (∀ (s : ℚ → ℚ) (e : String) (current : List ℚ) (hist : List (List ℚ)),
      ml_anomaly_detection s (.error e) current hist =
        { anomaly_score := (simple_anomaly_detection s current hist).1
          status := (simple_anomaly_detection s current hist).2
          patterns := []
          predictions := []
          method := some "statistical_fallback"
          error := some e }) ∧
    (∀ (s : ℚ → ℚ) (m : Backend) (seq : List SeqEntry) (d : MemoryData) (f : List ℚ)
      (e : String),
      extract_features s d = some f →
      ¬ (windowAppend 100 seq ⟨d.timestamp, f⟩).length < 5 →
      10 ≤ ((windowAppend 100 seq ⟨d.timestamp, f⟩).dropLast.map SeqEntry.features).length →
      m ((windowAppend 100 seq ⟨d.timestamp, f⟩).dropLast.map SeqEntry.features) f =
        .error e →
      (detect_memory_patterns s (some m) seq d).map Prod.snd =
        some (ml_anomaly_detection s (.error e) f
          ((windowAppend 100 seq ⟨d.timestamp, f⟩).dropLast.map SeqEntry.features))) := by
  constructor
  · intro s e current hist
    rfl
  · intro s m seq d f e hf h5 h10 hm
    simp only [detect_memory_patterns, hf]
    rw [if_neg h5, if_pos h10, hm]
    rfl

set_option maxRecDepth 100000 in
unseal Rat.add Rat.mul Rat.inv Rat.sub in
/-- **C9 (witness).**  The fallback theorem applied to a failing backend on
an 11-entry stored sequence. -/
theorem C9_fallback_witness :
    (detect_memory_patterns ratSqrt (some failingBackend) seqLong sysOk).map Prod.snd =
      some (ml_anomaly_detection ratSqrt (.error "fit failed")
        [50, 1 / 2, 10, 2, 3 / 32, 6, 3 / 2, 0]
        ((windowAppend 100 seqLong
          ⟨sysOk.timestamp, [50, 1 / 2, 10, 2, 3 / 32, 6, 3 / 2, 0]⟩).dropLast.map
            SeqEntry.features)) :=
  C9_fallback.2 ratSqrt failingBackend seqLong sysOk [50, 1 / 2, 10, 2, 3 / 32, 6, 3 / 2, 0]
    "fit failed" (by decide) (by decide) (by decide) rfl

/-!
**C10 — model path and its pattern kinds**
-/

/-- Every pattern `detect_ml_patterns` can emit is a `HIGH_VARIABILITY`
record. -/
lemma detect_ml_patterns_shape (s : ℚ → ℚ) (X : List (List ℚ)) :
    ∀ p ∈ detect_ml_patterns s X, ∃ fs, p = Pattern.highVariability fs := by
  intro p hp
  simp only [detect_ml_patterns] at hp
  split_ifs at hp
  all_goals first
    | exact absurd hp (List.not_mem_nil p)
    | exact ⟨_, List.mem_singleton.mp hp⟩

/-- **C10 (confirmed).**  When a model backend is present and the historical
feature count is at least 10, detection takes the model path; on a
successful fit the result is tagged `machine_learning` and its pattern list
contains only `HIGH_VARIABILITY` patterns — never INCREASING/DECREASING
trends or PERIODIC patterns, which only the statistical path emits. -/
theorem C10_model_path (s : ℚ → ℚ) (m : Backend) (seq : List SeqEntry) (d : MemoryData)
    (f : List ℚ) (score : ℚ) (isAnomaly : Bool)
    (hf : extract_features s d = some f)
    (h5 : ¬ (windowAppend 100 seq ⟨d.timestamp, f⟩).length < 5)
    (h10 : 10 ≤ ((windowAppend 100 seq ⟨d.timestamp, f⟩).dropLast.map SeqEntry.features).length)
    (hm : m ((windowAppend 100 seq ⟨d.timestamp, f⟩).dropLast.map SeqEntry.features) f =
      .ok (score, isAnomaly)) :
    ∃ r : DetectResult,
      (detect_memory_patterns s (some m) seq d).map Prod.snd = some r ∧
      r.method = some "machine_learning" ∧
      r.anomaly_score = score ∧
      ∀ p ∈ r.patterns, ∃ fs, p = Pattern.highVariability fs := by
  refine ⟨ml_anomaly_detection s (.ok (score, isAnomaly)) f
    ((windowAppend 100 seq ⟨d.timestamp, f⟩).dropLast.map SeqEntry.features), ?_, rfl, rfl, ?_⟩
  · simp only [detect_memory_patterns, hf]
    rw [if_neg h5, if_pos h10, hm]
    rfl
  · intro p hp
    exact detect_ml_patterns_shape s _ p hp

set_option maxRecDepth 100000 in
unseal Rat.add Rat.mul Rat.inv Rat.sub in
/-- **C10 (witness).**  The model-path theorem applied to a succeeding
backend on an 11-entry stored sequence. -/
theorem C10_model_path_witness :
    ∃ r : DetectResult,
      (detect_memory_patterns ratSqrt (some okBackend) seqLong sysOk).map Prod.snd = some r ∧
      r.method = some "machine_learning" ∧
      r.anomaly_score = -1 / 10 ∧
      ∀ p ∈ r.patterns, ∃ fs, p = Pattern.highVariability fs :=
  C10_model_path ratSqrt okBackend seqLong sysOk [50, 1 / 2, 10, 2, 3 / 32, 6, 3 / 2, 0]
    (-1 / 10) true (by decide) (by decide) (by decide) rfl
